import Mathlib

/-!
Verification of the Data-Governance front end (src/index.tsx) against its
natural-language specification.

The development shallowly embeds the event handlers of the page as pure
Lean functions over explicit state records.  External collaborators that
the repository treats as opaque boundaries are abstracted exactly as the
specification describes them:

* the model service delivers an ordered list of text fragments followed by
  either normal completion or a failure signal (`StreamOutcome`);
* the markdown renderer is an arbitrary function `render : String → String`
  passed as a parameter (the code calls `marked.parse`);
* the CSV library is modelled at the row level: `papaParse` implements the
  documented behaviour of `Papa.parse` with `header: true, preview: 5`
  (first row becomes the field list, at most five data rows are kept), and
  `papaUnparse` re-serialises a header plus data rows one line per row;
* `JSON.stringify` is an arbitrary serialisation function
  `stringify : SchemaObject → String` passed as a parameter.

DOM writes are recorded explicitly: each result surface is a string, the
trigger buttons carry a disabled flag, and `streamResponse` returns the
full list of writes it performs so that intermediate renders can be
inspected.
-/

namespace DataGovernance

/-! ### String helpers -/

theorem strAppend_empty (s : String) : s ++ "" = s := String.append_empty s

theorem strAppend_assoc (a b c : String) : (a ++ b) ++ c = a ++ (b ++ c) :=
  String.append_assoc a b c

/-- Model of the JavaScript `String.prototype.trim`: strip leading and
trailing whitespace characters.  Defined structurally over the character
list so that it evaluates by kernel reduction. -/
def jsTrim (s : String) : String :=
  String.mk
    (((s.data.dropWhile Char.isWhitespace).reverse.dropWhile
        Char.isWhitespace).reverse)

/-- Concatenation of a fragment list in arrival order. -/
def concatFrags : List String → String
  | [] => ""
  | f :: fs => f ++ concatFrags fs

/-! ### Streaming Response Renderer (src/index.tsx, `streamResponse`) -/

/-- End of an opened model-service stream: natural completion or a failure
signal carrying a human-readable description. -/
inductive StreamEnd where
  | completed : StreamEnd
  | failed (message : String) : StreamEnd

/-- Overall outcome of one call to the model service: either the opening
request itself throws, or a stream opens, delivers `fragments` in order and
then ends. -/
inductive StreamOutcome where
  | openFailed (message : String) : StreamOutcome
  | opened (fragments : List String) (ending : StreamEnd) : StreamOutcome

/-- The loading indicator written to the result surface while the request
is outstanding (line 66 of src/index.tsx). -/
def loadingHtml : String := "<div class=\"loading\"></div>"

/-- The error markup written to the result surface on any failure
(line 82 of src/index.tsx). -/
def errorHtml (message : String) : String :=
  "<div class=\"error\">An error occurred: " ++ (message ++ "</div>")

/-- The fragment loop of `streamResponse` (lines 74-79): starting from the
accumulator `acc`, append each fragment and render the entire accumulator.
Returns the list of successive surface writes together with the final
accumulator value. -/
def renderLoop (render : String → String) (acc : String) :
    List String → List String × String
  | [] => ([], acc)
  | f :: fs =>
      let acc' := acc ++ f
      let rest := renderLoop render acc' fs
      (render acc' :: rest.1, rest.2)

/-- Observable effects of one `streamResponse` call: the prompts sent to the
model service, every write performed on the result surface in order, and
every write performed on the trigger control disabled flag in order. -/
structure StreamRun where
  requestsSent : List String
  surfaceWrites : List String
  disabledWrites : List Bool

/-- Shallow embedding of `streamResponse` (src/index.tsx lines 60-86).
The button is disabled and the loading indicator shown; then the request is
issued once.  If opening throws, the catch block writes the error markup.
If a stream opens, the surface is cleared, each fragment is appended to the
accumulator and the whole accumulator re-rendered; a failure mid-stream
again writes the error markup.  The `finally` block re-enables the button
on every path. -/
def streamResponse (render : String → String) (prompt : String)
    (outcome : StreamOutcome) : StreamRun :=
  match outcome with
  | .openFailed msg =>
      { requestsSent := [prompt]
        surfaceWrites := [loadingHtml, errorHtml msg]
        disabledWrites := [true, false] }
  | .opened fs ending =>
      let renders := (renderLoop render "" fs).1
      match ending with
      | .completed =>
          { requestsSent := [prompt]
            surfaceWrites := loadingHtml :: "" :: renders
            disabledWrites := [true, false] }
      | .failed msg =>
          { requestsSent := [prompt]
            surfaceWrites := loadingHtml :: "" :: (renders ++ [errorHtml msg])
            disabledWrites := [true, false] }

/-- Final content of the result surface after a run: the last write. -/
def finalSurface (run : StreamRun) : String :=
  run.surfaceWrites.getLastD ""

/-- Final state of the trigger control disabled flag after a run. -/
def finalDisabled (run : StreamRun) : Bool :=
  run.disabledWrites.getLastD false

/-! ### Facts about the render loop -/

theorem renderLoop_snd (render : String → String) (fs : List String) :
    ∀ acc : String, (renderLoop render acc fs).2 = acc ++ concatFrags fs := by
  induction fs with
  | nil => intro acc; simp [renderLoop, concatFrags, strAppend_empty]
  | cons f fs ih =>
      intro acc
      simp [renderLoop, concatFrags, ih, strAppend_assoc]

theorem renderLoop_length (render : String → String) (fs : List String) :
    ∀ acc : String, (renderLoop render acc fs).1.length = fs.length := by
  induction fs with
  | nil => intro acc; simp [renderLoop]
  | cons f fs ih => intro acc; simp [renderLoop, ih]

theorem renderLoop_get (render : String → String) (fs : List String) :
    ∀ (acc : String) (i : Nat) (h : i < (renderLoop render acc fs).1.length),
      (renderLoop render acc fs).1.get ⟨i, h⟩ =
        render (acc ++ concatFrags (fs.take (i + 1))) := by
  induction fs with
  | nil => intro acc i h; simp [renderLoop] at h
  | cons f fs ih =>
      intro acc i h
      match i with
      | 0 => simp [renderLoop, concatFrags, strAppend_empty]
      | i + 1 =>
          have h' : i < (renderLoop render (acc ++ f) fs).1.length := by
            simp [renderLoop] at h
            simpa [renderLoop_length] using h
          have := ih (acc ++ f) i h'
          simp [renderLoop, concatFrags, strAppend_assoc] at this ⊢
          exact this

theorem renderLoop_getLastD (render : String → String) (fs : List String) :
    ∀ acc : String, fs ≠ [] →
      (renderLoop render acc fs).1.getLastD "" =
        render (acc ++ concatFrags fs) := by
  induction fs with
  | nil => intro acc h; exact absurd rfl h
  | cons f fs ih =>
      intro acc _
      match fs with
      | [] => simp [renderLoop, concatFrags, strAppend_empty]
      | g :: gs =>
          have hne : (g :: gs) ≠ ([] : List String) := by simp
          have := ih (acc ++ f) hne
          simp [renderLoop, concatFrags, strAppend_assoc] at this ⊢
          simpa [renderLoop] using this

theorem renderLoop_fst (render : String → String) (fs : List String) :
    ∀ acc : String, (renderLoop render acc fs).1 =
      (List.range fs.length).map
        (fun i => render (acc ++ concatFrags (fs.take (i + 1)))) := by
  induction fs with
  | nil => intro acc; simp [renderLoop]
  | cons f fs ih =>
      intro acc
      simp [renderLoop, List.range_succ_eq_map, List.map_map, ih (acc ++ f),
        concatFrags, strAppend_empty, strAppend_assoc, Function.comp]

/-- C1: after a normally completed stream of fragments, the surface writes
are the loading indicator, the initial clear, and then one render of the
entire accumulator per fragment; the final surface content is the render of
the concatenation of all fragments in arrival order. -/
theorem streamResponse_completed_renders_accumulator (render : String → String)
    (hr : render "" = "") (prompt : String) (fs : List String) :
    (streamResponse render prompt (.opened fs .completed)).surfaceWrites =
      loadingHtml :: "" ::
        (List.range fs.length).map
          (fun i => render (concatFrags (fs.take (i + 1)))) ∧
    finalSurface (streamResponse render prompt (.opened fs .completed)) =
      render (concatFrags fs) := by
  constructor
  · have h := renderLoop_fst render fs ""
    simp [streamResponse]
    simpa [String.empty_append] using h
  · show (loadingHtml :: "" :: (renderLoop render "" fs).1).getLastD "" =
      render (concatFrags fs)
    rw [List.getLastD_cons, List.getLastD_cons]
    match fs with
    | [] => simp [renderLoop, concatFrags, hr]
    | f :: fs' =>
        have h := renderLoop_getLastD render (f :: fs') "" (by simp)
        rw [String.empty_append] at h
        have hlen : (renderLoop render "" (f :: fs')).1 ≠ [] := by
          intro hh
          have := renderLoop_length render (f :: fs') ""
          rw [hh] at this
          simp at this
        match hrl : (renderLoop render "" (f :: fs')).1 with
        | [] => exact absurd hrl hlen
        | r :: rs =>
            rw [hrl] at h
            simpa [List.getLastD_cons] using h

/-- C1 witness: the fragment sequence from the specification example. -/
theorem streamResponse_completed_renders_accumulator_witness :
    finalSurface (streamResponse id "p" (.opened ["Hel", "lo"] .completed)) =
      "Hello" := by
  have h := streamResponse_completed_renders_accumulator id rfl "p" ["Hel", "lo"]
  have h2 := h.2
  simpa [concatFrags] using h2

/-- C2: on every outcome of the stream, successful or failed, the final
write to the trigger control disabled flag is `false`: the control never
ends a call stuck disabled. -/
theorem streamResponse_reenables_button (render : String → String)
    (prompt : String) (outcome : StreamOutcome) :
    (streamResponse render prompt outcome).disabledWrites.getLast? =
      some false ∧
    finalDisabled (streamResponse render prompt outcome) = false := by
  match outcome with
  | .openFailed msg => exact ⟨rfl, rfl⟩
  | .opened fs .completed => exact ⟨rfl, rfl⟩
  | .opened fs (.failed msg) => exact ⟨rfl, rfl⟩

/-- C4: on any failure, before or after the stream opens, the final surface
content is the error markup, which contains the failure description as a
substring, and exactly one request was sent (no retry). -/
theorem streamResponse_failure_shows_error (render : String → String)
    (prompt msg : String) (fs : List String) :
    (∃ a b, finalSurface (streamResponse render prompt (.openFailed msg)) =
        a ++ (msg ++ b)) ∧
    (streamResponse render prompt (.openFailed msg)).requestsSent = [prompt] ∧
    (∃ a b, finalSurface (streamResponse render prompt
        (.opened fs (.failed msg))) = a ++ (msg ++ b)) ∧
    (streamResponse render prompt (.opened fs (.failed msg))).requestsSent =
      [prompt] := by
  refine ⟨⟨"<div class=\"error\">An error occurred: ", "</div>", rfl⟩, rfl,
    ⟨"<div class=\"error\">An error occurred: ", "</div>", ?_⟩, rfl⟩
  show (loadingHtml :: "" ::
      ((renderLoop render "" fs).1 ++ [errorHtml msg])).getLastD "" = _
  rw [List.getLastD_cons, List.getLastD_cons, List.getLastD_concat]
  rfl

/-! ### Prompt templates (src/index.tsx lines 98-131 and 178-204)

The template literals are transcribed byte for byte; apostrophes are
written with the escape \x27 and the interpolation points split the
template into fixed pieces. -/

/-- Fixed opening of the compliance template: the newline after the opening
backtick and the indentation of the first line. -/
def compPre : String := "\n    "

/-- First line of the compliance template. -/
def compHeader : String := "You are a Data Governance Expert."

/-- Compliance template text between the header line and `${schema}`. -/
def compSchemaLead : String := "\n    Your task is to analyze a user\x27s query against a given data schema, determine its compliance, and if it is compliant, show a sample of the query\x27s result with all PII redacted.\n\n    **Data Schema:**\n    ```json\n    "

/-- Compliance template text between `${schema}` and `${query}`. -/
def compQueryLead : String := "\n    ```\n\n    **User Query:**\n    ```sql\n    "

/-- Compliance template text after `${query}`. -/
def compTail : String := "\n    ```\n\n    Please provide the following analysis in well-structured Markdown format:\n\n    ---\n\n    ### Compliance Analysis\n\n    **Compliance Status:** (State \"Compliant\" or \"Non-Compliant\")\n\n    **Reasoning:** (If Non-Compliant, explain the violation. If Compliant, briefly state why.)\n\n    **Suggested Compliant Query:** (If Non-Compliant, provide a safe alternative. If Compliant, state that no changes are needed.)\n\n    ---\n\n    ### Sample Redacted Results\n\n    -   If the query is **Compliant**, generate a small, realistic, sample markdown table representing the query\x27s output (3-4 rows).\n    -   In this table, for any column identified as PII from the schema, replace its data with the placeholder `[REDACTED]`.\n    -   If the query is **Non-Compliant**, simply state: \"Redacted results are not generated for non-compliant queries.\"\n  "

/-- The compliance prompt: the template with schema and query interpolated
verbatim (src/index.tsx lines 98-131). -/
def buildCompliancePrompt (schema query : String) : String :=
  compPre ++ (compHeader ++ (compSchemaLead ++ (schema ++
    (compQueryLead ++ (query ++ compTail)))))

/-- Fixed opening of the classification template. -/
def classPre : String := "\n    "

/-- First line of the classification template. -/
def classHeader : String := "You are a Data Classification Specialist."

/-- Classification template text between the header line and `${schema}`. -/
def classSchemaLead : String := "\n    Your task is to analyze a data schema and a corresponding data sample to classify each field\x27s sensitivity level. The data may be in JSON or CSV format.\n\n    **Data Schema:**\n    ```\n    "

/-- Classification template text between `${schema}` and `${sample}`. -/
def classSampleLead : String := "\n    ```\n\n    **Data Sample:**\n    ```\n    "

/-- Classification template text after `${sample}`. -/
def classTail : String := "\n    ```\n\n    Please perform the following:\n    1.  Carefully examine each field provided in the schema.\n    2.  Use the data sample to understand the context and typical values for each field.\n    3.  Classify each field into one of the following categories:\n        -   **PII (Personally Identifiable Information):** Data that can be used to identify a specific individual (e.g., name, email, address, phone number, IP address).\n        -   **Sensitive:** Data that is confidential but not directly identifying (e.g., financial data, internal metrics, transaction amounts).\n        -   **Public:** Non-sensitive data that can be shared openly (e.g., product IDs, transaction dates, public identifiers).\n\n    Present your findings in a clear Markdown table with the following columns:\n    -   **Field Name**\n    -   **Classification**\n    -   **Reasoning** (Provide a brief justification for your classification).\n  "

/-- The classification prompt: the template with schema and sample
interpolated verbatim (src/index.tsx lines 178-204). -/
def buildClassificationPrompt (schema sample : String) : String :=
  classPre ++ (classHeader ++ (classSchemaLead ++ (schema ++
    (classSampleLead ++ (sample ++ classTail)))))

/-! ### View Controller state and click handlers -/

/-- The editable inputs and result surfaces of the page. -/
structure PageState where
  schemaInputCompliance : String
  queryInput : String
  complianceResultHtml : String
  schemaInputClassifier : String
  sampleInput : String
  classifierResultHtml : String

/-- Result of one click handler run: the updated page state and the prompt
passed to `streamResponse`, or `none` when the Renderer was not invoked. -/
structure ClickResult where
  state : PageState
  request : Option String

/-- Validation message of the compliance handler (src/index.tsx line 94). -/
def complianceEmptyError : String :=
  "<div class=\"error\">Schema and Query cannot be empty.</div>"

/-- Validation message of the classifier handler (src/index.tsx line 174). -/
def classifierEmptyError : String :=
  "<div class=\"error\">Schema and Data Sample cannot be empty.</div>"

/-- Shallow embedding of the compliance button click handler
(src/index.tsx lines 89-134): read the two inputs, reject blank input with
an inline error and no request, otherwise build the prompt and invoke the
Renderer. -/
def checkComplianceClick (s : PageState) : ClickResult :=
  if jsTrim s.schemaInputCompliance = "" ∨ jsTrim s.queryInput = "" then
    { state := { s with complianceResultHtml := complianceEmptyError }
      request := none }
  else
    { state := s
      request := some (buildCompliancePrompt s.schemaInputCompliance s.queryInput) }

/-- Shallow embedding of the classifier button click handler
(src/index.tsx lines 169-206). -/
def classifyDataClick (s : PageState) : ClickResult :=
  if jsTrim s.schemaInputClassifier = "" ∨ jsTrim s.sampleInput = "" then
    { state := { s with classifierResultHtml := classifierEmptyError }
      request := none }
  else
    { state := s
      request := some (buildClassificationPrompt s.schemaInputClassifier s.sampleInput) }

/-- C3: whenever a required input is empty or whitespace-only, the click
handler writes the validation error to its result surface and issues no
request to the Renderer. -/
theorem click_handlers_validate_empty_inputs (s : PageState) :
    (jsTrim s.schemaInputCompliance = "" ∨ jsTrim s.queryInput = "" →
      (checkComplianceClick s).request = none ∧
      (checkComplianceClick s).state.complianceResultHtml =
        complianceEmptyError) ∧
    (jsTrim s.schemaInputClassifier = "" ∨ jsTrim s.sampleInput = "" →
      (classifyDataClick s).request = none ∧
      (classifyDataClick s).state.classifierResultHtml =
        classifierEmptyError) := by
  constructor
  · intro h
    rw [checkComplianceClick, if_pos h]
    exact ⟨rfl, rfl⟩
  · intro h
    rw [classifyDataClick, if_pos h]
    exact ⟨rfl, rfl⟩

/-- C3 witness: a whitespace-only compliance schema and a whitespace-only
classifier schema both suppress the request. -/
theorem click_handlers_validate_empty_inputs_witness :
    (checkComplianceClick ⟨" ", "SELECT 1", "", "", "", ""⟩).request = none ∧
    (classifyDataClick ⟨"x", "y", "", " ", "data", ""⟩).request = none :=
  ⟨((click_handlers_validate_empty_inputs
      ⟨" ", "SELECT 1", "", "", "", ""⟩).1 (Or.inl (by decide))).1,
   ((click_handlers_validate_empty_inputs
      ⟨"x", "y", "", " ", "data", ""⟩).2 (Or.inl (by decide))).1⟩

/-- C5: on valid input, the compliance handler requests exactly the built
prompt, which contains the schema, the query and the fixed instructional
header verbatim as substrings. -/
theorem compliance_prompt_contains_inputs (s : PageState)
    (h1 : ¬ jsTrim s.schemaInputCompliance = "")
    (h2 : ¬ jsTrim s.queryInput = "") :
    (checkComplianceClick s).request =
      some (buildCompliancePrompt s.schemaInputCompliance s.queryInput) ∧
    (∃ a b, buildCompliancePrompt s.schemaInputCompliance s.queryInput =
        a ++ (s.schemaInputCompliance ++ b)) ∧
    (∃ a b, buildCompliancePrompt s.schemaInputCompliance s.queryInput =
        a ++ (s.queryInput ++ b)) ∧
    (∃ a b, buildCompliancePrompt s.schemaInputCompliance s.queryInput =
        a ++ (compHeader ++ b)) := by
  refine ⟨?_, ?_, ?_, ?_⟩
  · rw [checkComplianceClick, if_neg]
    rintro (h | h)
    · exact h1 h
    · exact h2 h
  · exact ⟨compPre ++ (compHeader ++ compSchemaLead),
      compQueryLead ++ (s.queryInput ++ compTail),
      by simp [buildCompliancePrompt, strAppend_assoc]⟩
  · exact ⟨compPre ++ (compHeader ++ (compSchemaLead ++
        (s.schemaInputCompliance ++ compQueryLead))), compTail,
      by simp [buildCompliancePrompt, strAppend_assoc]⟩
  · exact ⟨compPre, compSchemaLead ++ (s.schemaInputCompliance ++
        (compQueryLead ++ (s.queryInput ++ compTail))), rfl⟩

/-- C5 witness: concrete non-blank schema and query. -/
theorem compliance_prompt_contains_inputs_witness :
    (checkComplianceClick ⟨"MYSCHEMA", "MYQUERY", "", "", "", ""⟩).request =
      some (buildCompliancePrompt "MYSCHEMA" "MYQUERY") :=
  (compliance_prompt_contains_inputs ⟨"MYSCHEMA", "MYQUERY", "", "", "", ""⟩
    (by decide) (by decide)).1

/-! ### Tab navigation (src/index.tsx lines 38-53) -/

/-- Modelled from the spec: the page markup (index.html, not under src/)
contains exactly the two modes Compliance and Classifier, each with one
tab button carrying class tab-button and one content panel carrying class
tab-content. -/
inductive Tab where
  | compliance : Tab
  | classifier : Tab

/-- Presentation flags of the two tab buttons and the two content panels:
the active class and the aria-selected attribute of each button, and the
active class of each panel. -/
structure TabDom where
  tabComplianceActive : Bool
  tabComplianceSelected : Bool
  tabClassifierActive : Bool
  tabClassifierSelected : Bool
  contentComplianceActive : Bool
  contentClassifierActive : Bool

/-- First half of `switchTab`: the two forEach loops that remove the
active class and deselect every tab button and every content panel. -/
def clearAllTabs (_s : TabDom) : TabDom :=
  { tabComplianceActive := false
    tabComplianceSelected := false
    tabClassifierActive := false
    tabClassifierSelected := false
    contentComplianceActive := false
    contentClassifierActive := false }

/-- Shallow embedding of `switchTab` (src/index.tsx lines 38-50): clear
every marker, then mark the clicked tab active and selected and its paired
content panel active. -/
def switchTab (t : Tab) (s : TabDom) : TabDom :=
  let cleared := clearAllTabs s
  match t with
  | .compliance =>
      { cleared with
          tabComplianceActive := true
          tabComplianceSelected := true
          contentComplianceActive := true }
  | .classifier =>
      { cleared with
          tabClassifierActive := true
          tabClassifierSelected := true
          contentClassifierActive := true }

/-- The canonical presentation state in which exactly one mode is marked
active and selected. -/
def tabOnlyActive : Tab → TabDom
  | .compliance =>
      { tabComplianceActive := true
        tabComplianceSelected := true
        tabClassifierActive := false
        tabClassifierSelected := false
        contentComplianceActive := true
        contentClassifierActive := false }
  | .classifier =>
      { tabComplianceActive := false
        tabComplianceSelected := false
        tabClassifierActive := true
        tabClassifierSelected := true
        contentComplianceActive := false
        contentClassifierActive := true }

/-- C8: from any prior presentation state, switching to a tab yields the
state in which exactly that tab is marked active and selected and exactly
its paired content panel is active; every other marker is cleared.  Since
the result is independent of the prior state, the property holds after any
sequence of tab clicks. -/
theorem switchTab_exactly_one_active (s : TabDom) (t : Tab) :
    switchTab t s = tabOnlyActive t := by
  cases t <;> rfl

/-! ### Startup credential guard (src/index.tsx lines 10-15) -/

/-- The static markup written over the whole page body when the API key is
missing (src/index.tsx line 13). -/
def missingKeyHtml : String := "<div class=\"error\">Missing API Key!</div>"

/-- Truthiness test performed by the guard: in JavaScript `!API_KEY` holds
when the configuration variable is undefined or the empty string. -/
def apiKeyMissing : Option String → Bool
  | none => true
  | some s => s == ""

/-- Result of running the top-level module code: the markup written over
the page body (if any), whether an error was thrown, and whether the
normal UI was wired up. -/
structure InitResult where
  bodyHtml : Option String
  threw : Bool
  wired : Bool

/-- Shallow embedding of the top-level startup sequence: if the credential
is missing, replace the entire page body with the static error markup and
throw before any component is wired; otherwise wiring proceeds. -/
def initApp (key : Option String) : InitResult :=
  if apiKeyMissing key then
    { bodyHtml := some missingKeyHtml, threw := true, wired := false }
  else
    { bodyHtml := none, threw := false, wired := true }

/-- C9: with the credential absent, startup replaces the page body with the
static error message, throws, and wires no normal UI behaviour. -/
theorem missing_api_key_halts_startup :
    initApp none =
      { bodyHtml := some missingKeyHtml, threw := true, wired := false } :=
  rfl

/-! ### Tabular Sample Extractor (src/index.tsx lines 140-166) -/

/-- One entry of the placeholder schema: a field name and its type tag. -/
structure FieldEntry where
  name : String
  type : String

/-- The schema object serialised for the prompt (src/index.tsx lines
152-155): the file name and the wrapped field list; the field list is
absent when the parse produced no header. -/
structure SchemaObject where
  name : String
  fields : Option (List FieldEntry)

/-- Parse results as delivered to the complete callback: the header names
(meta.fields) and the parsed data rows, each row being its cell values in
header order. -/
structure ParseResults where
  fields : Option (List String)
  data : List (List String)

/-- Model of the external boundary `Papa.parse` with header row detection
and row limit 5 (config `header: true, preview: 5`): the first row of the
file becomes the field list and at most the next five rows become the
data. -/
def papaParse (rows : List (List String)) : ParseResults :=
  { fields := rows.head?
    data := (rows.drop 1).take 5 }

/-- Model of the external boundary `Papa.unparse`: re-serialise the header
and the data rows in the same tabular text form, one comma-separated line
per row. -/
def papaUnparse (fields : List String) (data : List (List String)) : String :=
  String.intercalate "\n"
    (String.intercalate "," fields :: data.map (String.intercalate ","))

/-- The schema object built by the complete callback (src/index.tsx lines
152-155): the file name and each parsed header name wrapped into an entry
whose type is always the literal placeholder "unknown". -/
def extractorSchemaObject (fileName : String) (results : ParseResults) :
    SchemaObject :=
  { name := fileName
    fields := results.fields.map
      (List.map (fun f => { name := f, type := "unknown" })) }

/-- The re-serialised sample built by the complete callback
(src/index.tsx line 157). -/
def extractorSample (results : ParseResults) : String :=
  match results.fields with
  | some fl => papaUnparse fl results.data
  | none => ""

/-- The error markup written to the classifier result surface when parsing
fails (src/index.tsx line 163). -/
def parseErrorHtml (message : String) : String :=
  "<div class=\"error\">Error parsing file: " ++ (message ++ "</div>")

/-- Outcome of handing the selected file to the parsing library. -/
inductive FileParse where
  | parsed (rows : List (List String)) : FileParse
  | failed (message : String) : FileParse

/-- A change event on the file input: either no file is selected, or a file
with a name whose parse has the given outcome. -/
inductive UploadEvent where
  | noFile : UploadEvent
  | selected (fileName : String) (parse : FileParse) : UploadEvent

/-- Result of the change handler: the updated page state and how many times
the parsing library was invoked. -/
structure UploadResult where
  state : PageState
  parseCalls : Nat

/-- Shallow embedding of the file upload change handler (src/index.tsx
lines 140-166): with no file selected it returns immediately; on a parse
failure it writes the error markup to the classifier result surface; on
success it overwrites the classifier schema input with the serialised
schema object and the sample input with the re-serialised sample. -/
def fileUploadChange (stringify : SchemaObject → String) (ev : UploadEvent)
    (s : PageState) : UploadResult :=
  match ev with
  | .noFile => { state := s, parseCalls := 0 }
  | .selected _ (.failed msg) =>
      { state := { s with classifierResultHtml := parseErrorHtml msg }
        parseCalls := 1 }
  | .selected fileName (.parsed rows) =>
      let results := papaParse rows
      { state := { s with
          schemaInputClassifier :=
            stringify (extractorSchemaObject fileName results)
          sampleInput := extractorSample results }
        parseCalls := 1 }

/-- C6: for a file with a header row, the schema object wraps each header
name into an entry typed with the literal "unknown", one entry per header
name; the parsed data keeps at most 5 rows and the re-serialised sample is
the header line followed by at most 5 data lines. -/
theorem extractor_fields_and_sample_bound (fileName : String)
    (hdr : List String) (rows : List (List String)) :
    (extractorSchemaObject fileName (papaParse (hdr :: rows))).fields =
      some (hdr.map (fun f => { name := f, type := "unknown" })) ∧
    (papaParse (hdr :: rows)).data.length ≤ 5 ∧
    ∃ ls : List String,
      extractorSample (papaParse (hdr :: rows)) =
        String.intercalate "\n" (String.intercalate "," hdr :: ls) ∧
      ls.length ≤ 5 := by
  refine ⟨rfl, ?_, (rows.take 5).map (String.intercalate ","), rfl, ?_⟩
  · simp [papaParse, List.length_take]
  · simp [List.length_take]

/-- C7: on a parse failure, the handler writes the error markup, which
contains the failure description, to the classifier result surface, and
both the classifier schema input and the sample input keep their previous
values. -/
theorem upload_failure_preserves_fields (stringify : SchemaObject → String)
    (fileName msg : String) (s : PageState) :
    (fileUploadChange stringify (.selected fileName (.failed msg))
        s).state.schemaInputClassifier = s.schemaInputClassifier ∧
    (fileUploadChange stringify (.selected fileName (.failed msg))
        s).state.sampleInput = s.sampleInput ∧
    (fileUploadChange stringify (.selected fileName (.failed msg))
        s).state.classifierResultHtml = parseErrorHtml msg ∧
    ∃ a b, parseErrorHtml msg = a ++ (msg ++ b) :=
  ⟨rfl, rfl, rfl, "<div class=\"error\">Error parsing file: ", "</div>", rfl⟩

/-- C10: a change event with no file selected leaves the page state
untouched and never invokes the parsing library. -/
theorem upload_no_file_is_noop (stringify : SchemaObject → String)
    (s : PageState) :
    fileUploadChange stringify .noFile s = { state := s, parseCalls := 0 } :=
  rfl

end DataGovernance
